import Mathlib

/-!
Verification of `hacking/checks/except_checks.py`.

The module defines three flake8 checks (H201, H202, H203), a predicate
`is_none` deciding whether an AST node denotes the Python `None` literal,
and an `ast.NodeVisitor` subclass `NoneArgChecker` that scans every call
node of a parsed logical line for `None` among the first `num_args`
positional arguments of calls to a given function name.

The embedding models the fragment of the Python `ast` node hierarchy that
these checks interact with: `Name`, `NameConstant`, `Str`, `Attribute`,
`Subscript`, `Dict` and `Call` expression nodes.  `Call` carries the list
of positional arguments (`args`) and the list of keyword arguments
(`keywords`), exactly as in the Python AST.  `ast.parse` itself is the
Python standard library, outside this repository; rule functions that call
it take a `parse : String → Option PyExpr` parameter (`some` = the
expression tree of the parsed line, `none` = `SyntaxError`), and concrete
test lines are paired with their hand-translated trees.
-/

namespace ExceptChecks

mutual

/-- Fragment of the Python `ast` expression node hierarchy used by the
checks.  `NameConstant` carries `Option Bool`: `none` stands for the
Python value `None`, `some b` for `True`/`False`. -/
inductive PyExpr where
  | Name (id : String)
  | NameConstant (value : Option Bool)
  | Str (s : String)
  | Attribute (value : PyExpr) (attr : String)
  | Subscript (value : PyExpr) (index : PyExpr)
  | Dict (keys : PyExprList) (values : PyExprList)
  | Call (func : PyExpr) (args : PyExprList) (keywords : KeywordList)

/-- List of expression nodes (mutual with `PyExpr`). -/
inductive PyExprList where
  | nil
  | cons (head : PyExpr) (tail : PyExprList)

/-- List of `ast.keyword` nodes: each has an argument name and a value. -/
inductive KeywordList where
  | nil
  | cons (arg : String) (value : PyExpr) (tail : KeywordList)

end

/-- `node.args[:n]`: the first `n` elements of a positional-argument list. -/
def PyExprList.take (l : PyExprList) (n : Nat) : PyExprList :=
  match n, l with
  | 0, _ => .nil
  | _ + 1, .nil => .nil
  | n + 1, .cons h t => .cons h (t.take n)

/-- `any(p(x) for x in l)` over an argument list. -/
def PyExprList.any (l : PyExprList) (p : PyExpr → Bool) : Bool :=
  match l with
  | .nil => false
  | .cons h t => p h || t.any p

/-- Conversion to an ordinary Lean list (used on the specification side). -/
def PyExprList.toList (l : PyExprList) : List PyExpr :=
  match l with
  | .nil => []
  | .cons h t => h :: t.toList

/-- `is_none(node)` from except_checks.py.  `PY2` is `six.PY2`, fixed once
per process by the host runtime.  In Python 2 `None` parses as an
`ast.Name` whose `id` is the string `"None"`; in Python 3 it parses as an
`ast.NameConstant` whose `value` is the `None` singleton. -/
def is_none (PY2 : Bool) (node : PyExpr) : Bool :=
  if PY2 then
    match node with
    | PyExpr.Name id => id == "None"
    | _ => false
  else
    match node with
    | PyExpr.NameConstant value => value.isNone
    | _ => false

/-- State of the `NoneArgChecker` visitor: the target function name, the
number of leading positional arguments to check, and the accumulated
`none_found` flag (initially `False`). -/
structure NoneArgChecker where
  func_name : String
  num_args : Nat
  none_found : Bool

/-- The callee-name resolution at the top of `visit_Call`:
`node.func.attr` when the callee is an `ast.Attribute`, `node.func.id`
when it is an `ast.Name`, and `None` for any other callee shape
(`ast.Subscript`, etc. — ignored). -/
def local_func_name : PyExpr → Option String
  | PyExpr.Attribute _ attr => some attr
  | PyExpr.Name id => some id
  | _ => none

mutual

/-- `NoneArgChecker.visit`: `visit_Call` for `Call` nodes (resolve the
callee's simple name, and when it equals `func_name` OR into `none_found`
whether any of `node.args[:num_args]` `is_none`), then `generic_visit`,
which recurses into every child node — including the callee, every
positional argument and every keyword argument's value.  Non-`Call` nodes
only `generic_visit` into their children. -/
def NoneArgChecker.visit (PY2 : Bool) (c : NoneArgChecker) : PyExpr → NoneArgChecker
  | PyExpr.Name _ => c
  | PyExpr.NameConstant _ => c
  | PyExpr.Str _ => c
  | PyExpr.Attribute value _ => NoneArgChecker.visit PY2 c value
  | PyExpr.Subscript value index =>
      NoneArgChecker.visit PY2 (NoneArgChecker.visit PY2 c value) index
  | PyExpr.Dict keys values =>
      NoneArgChecker.visitList PY2 (NoneArgChecker.visitList PY2 c keys) values
  | PyExpr.Call func args keywords =>
      let c1 :=
        if local_func_name func == some c.func_name then
          { c with none_found := c.none_found || (args.take c.num_args).any (is_none PY2) }
        else c
      NoneArgChecker.visitKeywords PY2
        (NoneArgChecker.visitList PY2 (NoneArgChecker.visit PY2 c1 func) args) keywords

/-- `generic_visit` over a list of child expression nodes. -/
def NoneArgChecker.visitList (PY2 : Bool) (c : NoneArgChecker) : PyExprList → NoneArgChecker
  | PyExprList.nil => c
  | PyExprList.cons h t => NoneArgChecker.visitList PY2 (NoneArgChecker.visit PY2 c h) t

/-- `generic_visit` over a list of keyword nodes (visits each value). -/
def NoneArgChecker.visitKeywords (PY2 : Bool) (c : NoneArgChecker) : KeywordList → NoneArgChecker
  | KeywordList.nil => c
  | KeywordList.cons _ v t => NoneArgChecker.visitKeywords PY2 (NoneArgChecker.visit PY2 c v) t

end

/-! String primitives of the Python `str` type, over character sequences. -/

/-- Auxiliary scan for `str.index`: first position at or after `i` where
`needle` occurs in `hay`. -/
def strFindAux (needle : List Char) : List Char → Nat → Option Nat
  | [], i => if needle.isPrefixOf ([] : List Char) then some i else none
  | ch :: t, i =>
      if needle.isPrefixOf (ch :: t) then some i else strFindAux needle t (i + 1)

/-- Python `s.index(sub)`: position (in characters) of the first occurrence
of `sub` in `s`; `none` models the `ValueError` raised when absent. -/
def pyIndex (s sub : String) : Option Nat :=
  strFindAux sub.data s.data 0

/-- Python `s.startswith(pre)`. -/
def pyStartswith (s pre : String) : Bool :=
  pre.data.isPrefixOf s.data

/-! The three rule functions. -/

/-- The H201 message string. -/
def H201_MSG : String := "H201: no 'except:' at least use 'except Exception:'"

/-- `hacking_except_format(logical_line, noqa)`: when not suppressed,
yields `(6, H201 message)` exactly when the logical line starts with the
literal text `except:`. -/
def hacking_except_format (logical_line : String) (noqa : Bool) : List (Nat × String) :=
  if noqa then []
  else if pyStartswith logical_line "except:" then [(6, H201_MSG)]
  else []

/-- `RE_ASSERT_RAISES_EXCEPTION.search(s)`.  The compiled pattern
`self\.assertRaises\(Exception[,\)]` is a literal string followed by one
character from the two-character class comma / closing parenthesis, and
`re.search` looks for it anywhere in the line, so it matches exactly when
one of the two corresponding literal strings occurs as a substring. -/
def re_assert_raises_exception_search (s : String) : Bool :=
  (pyIndex s "self.assertRaises(Exception,").isSome
    || (pyIndex s "self.assertRaises(Exception)").isSome

/-- The H202 message string. -/
def H202_MSG : String := "H202: assertRaises Exception too broad"

/-- `hacking_except_format_assert(logical_line, noqa)`: when not
suppressed, yields `(1, H202 message)` exactly when
`RE_ASSERT_RAISES_EXCEPTION` matches somewhere in the logical line. -/
def hacking_except_format_assert (logical_line : String) (noqa : Bool) : List (Nat × String) :=
  if noqa then []
  else if re_assert_raises_exception_search logical_line then [(1, H202_MSG)]
  else []

/-- The H203 message string. -/
def H203_MSG : String := "H203: Use assertIs(Not)None to check for None"

/-- The tuple of method names the H203 rule iterates over, in source
order. -/
def check_names : List String :=
  ["assertEqual", "assertIs", "assertNotEqual", "assertIsNot"]

/-- The `for func_name in (...)` loop body of `hacking_assert_is_none`.
For each name: `logical_line.index('.%s(' % func_name)` (a `ValueError`,
modelled by `none`, continues the loop); on a hit, `ast.parse` the whole
line (its `SyntaxError`, modelled by `parse` returning `none`, propagates
uncaught, aborting the generator), run a fresh `NoneArgChecker` with
default `num_args = 2` over the tree, and yield `(start, H203 message)`
when it found a `None` argument; then continue with the remaining names. -/
def assertIsNoneLoop (PY2 : Bool) (parse : String → Option PyExpr)
    (logical_line : String) : List String → Except Unit (List (Nat × String))
  | [] => Except.ok []
  | func_name :: rest =>
      match pyIndex logical_line ("." ++ func_name ++ "(") with
      | none => assertIsNoneLoop PY2 parse logical_line rest
      | some idx =>
          let start := idx + 1
          match parse logical_line with
          | none => Except.error ()
          | some tree =>
              let checker := NoneArgChecker.visit PY2 ⟨func_name, 2, false⟩ tree
              match assertIsNoneLoop PY2 parse logical_line rest with
              | Except.error e => Except.error e
              | Except.ok ds =>
                  Except.ok (if checker.none_found then (start, H203_MSG) :: ds else ds)

/-- `hacking_assert_is_none(logical_line, noqa)`.  `parse` stands for the
host runtime's `ast.parse` restricted to the expression of the line
(`ast.parse` wraps it in `Module`/`Expr` nodes, which only forward
`generic_visit`); `Except.error` models an uncaught exception escaping the
generator. -/
def hacking_assert_is_none (PY2 : Bool) (parse : String → Option PyExpr)
    (logical_line : String) (noqa : Bool) : Except Unit (List (Nat × String)) :=
  if noqa then Except.ok []
  else assertIsNoneLoop PY2 parse logical_line check_names

/-! Specification-side definitions, written from the spec's description of
CallArgumentScanner: the callee's simple name (attribute name for an
attribute access, identifier for a bare name, nothing for any other
shape), the per-call match condition, and the list of all nodes of a
tree. -/

/-- The callee's simple name as the spec describes it: the attribute name
when the callee is an attribute access, the identifier when it is a bare
name, `none` (call skipped) for any other callee shape. -/
def simpleCalleeName : PyExpr → Option String
  | PyExpr.Attribute _ attr => some attr
  | PyExpr.Name id => some id
  | _ => none

/-- Spec-side match condition for one node: the node is a `Call` whose
callee's simple name equals the target and at least one positional
argument at index `0..k-1` (fewer if the call has fewer) satisfies the
null-literal predicate.  Keyword arguments are never inspected. -/
def isTargetCallWithNone (PY2 : Bool) (target : String) (k : Nat) : PyExpr → Bool
  | PyExpr.Call func args _ =>
      simpleCalleeName func == some target && (args.toList.take k).any (is_none PY2)
  | _ => false

mutual

/-- Every node of an expression tree: the node itself and, recursively,
all nodes of its children (callee, positional arguments and keyword
values of calls included). -/
def allNodes : PyExpr → List PyExpr
  | PyExpr.Name id => [PyExpr.Name id]
  | PyExpr.NameConstant v => [PyExpr.NameConstant v]
  | PyExpr.Str s => [PyExpr.Str s]
  | PyExpr.Attribute v a => PyExpr.Attribute v a :: allNodes v
  | PyExpr.Subscript v i => PyExpr.Subscript v i :: (allNodes v ++ allNodes i)
  | PyExpr.Dict ks vs => PyExpr.Dict ks vs :: (allNodesList ks ++ allNodesList vs)
  | PyExpr.Call f a k => PyExpr.Call f a k :: (allNodes f ++ (allNodesList a ++ allNodesKeywords k))

/-- All nodes of each tree in a list of trees. -/
def allNodesList : PyExprList → List PyExpr
  | PyExprList.nil => []
  | PyExprList.cons h t => allNodes h ++ allNodesList t

/-- All nodes of each keyword argument's value. -/
def allNodesKeywords : KeywordList → List PyExpr
  | KeywordList.nil => []
  | KeywordList.cons _ v t => allNodes v ++ allNodesKeywords t

end

/-! Concrete logical lines used by the spec's test properties, each paired
with the expression tree `ast.parse` produces for it (hand-translated,
Python 3 dialect: `None` is a `NameConstant`). -/

/-- List-literal notation for `PyExprList`. -/
def pl : List PyExpr → PyExprList
  | [] => PyExprList.nil
  | x :: xs => PyExprList.cons x (pl xs)

/-- List-literal notation for `KeywordList`. -/
def kl : List (String × PyExpr) → KeywordList
  | [] => KeywordList.nil
  | (a, v) :: xs => KeywordList.cons a v (kl xs)

def line1 : String := "self.assertEqual(None, 'foo')"

/-- `ast` tree of `line1`. -/
def tree1 : PyExpr :=
  PyExpr.Call (PyExpr.Attribute (PyExpr.Name "self") "assertEqual")
    (pl [PyExpr.NameConstant none, PyExpr.Str "foo"]) (kl [])

def line2 : String := "self.assertEqual('foo', 'bar')"

/-- `ast` tree of `line2`. -/
def tree2 : PyExpr :=
  PyExpr.Call (PyExpr.Attribute (PyExpr.Name "self") "assertEqual")
    (pl [PyExpr.Str "foo", PyExpr.Str "bar"]) (kl [])

def line3 : String := "self.assertNotEqual('foo', {}.get('bar', None))"

/-- `ast` tree of `line3`: the null literal sits inside the argument list
of the nested `.get` call, not among the target call's arguments. -/
def tree3 : PyExpr :=
  PyExpr.Call (PyExpr.Attribute (PyExpr.Name "self") "assertNotEqual")
    (pl [PyExpr.Str "foo",
         PyExpr.Call (PyExpr.Attribute (PyExpr.Dict (pl []) (pl [])) "get")
           (pl [PyExpr.Str "bar", PyExpr.NameConstant none]) (kl [])])
    (kl [])

def line4 : String := "self.assertEqual(self.assertIs(None, x), None)"

/-- `ast` tree of `line4`: two distinct target-method calls, each with a
`None` among its first two positional arguments. -/
def tree4 : PyExpr :=
  PyExpr.Call (PyExpr.Attribute (PyExpr.Name "self") "assertEqual")
    (pl [PyExpr.Call (PyExpr.Attribute (PyExpr.Name "self") "assertIs")
           (pl [PyExpr.NameConstant none, PyExpr.Name "x"]) (kl []),
         PyExpr.NameConstant none])
    (kl [])

def line5 : String := "self.assertEqual(first=None, second='foo')"

/-- `ast` tree of `line5`: `None` appears only as a keyword argument's
value; the call has no positional arguments. -/
def tree5 : PyExpr :=
  PyExpr.Call (PyExpr.Attribute (PyExpr.Name "self") "assertEqual")
    (pl [])
    (kl [("first", PyExpr.NameConstant none), ("second", PyExpr.Str "foo")])

/-- A concrete stand-in for the host's `ast.parse`, defined on the lines
above. -/
def parseFixture : String → Option PyExpr := fun s =>
  if s = line1 then some tree1
  else if s = line2 then some tree2
  else if s = line3 then some tree3
  else if s = line4 then some tree4
  else if s = line5 then some tree5
  else none

/-! Helper lemmas: the visitor computes the boolean OR, over all nodes of
the tree, of the per-call match condition. -/

theorem local_func_name_eq (f : PyExpr) : local_func_name f = simpleCalleeName f := by
  cases f <;> rfl

theorem PyExprList.any_eq_toList (l : PyExprList) (p : PyExpr → Bool) :
    l.any p = l.toList.any p :=
  match l with
  | .nil => rfl
  | .cons h t => by
      simp [PyExprList.any, PyExprList.toList, PyExprList.any_eq_toList t p]

theorem PyExprList.toList_take (l : PyExprList) (n : Nat) :
    (l.take n).toList = l.toList.take n :=
  match n, l with
  | 0, l => by simp [PyExprList.take, PyExprList.toList]
  | n + 1, .nil => by simp [PyExprList.take, PyExprList.toList]
  | n + 1, .cons h t => by
      simp [PyExprList.take, PyExprList.toList, PyExprList.toList_take t n]

mutual

theorem visit_spec (PY2 : Bool) (c : NoneArgChecker) (e : PyExpr) :
    NoneArgChecker.visit PY2 c e
      = { c with none_found := c.none_found
            || (allNodes e).any (isTargetCallWithNone PY2 c.func_name c.num_args) } :=
  match e with
  | PyExpr.Name id => by
      simp [NoneArgChecker.visit, allNodes, isTargetCallWithNone]
  | PyExpr.NameConstant v => by
      simp [NoneArgChecker.visit, allNodes, isTargetCallWithNone]
  | PyExpr.Str s => by
      simp [NoneArgChecker.visit, allNodes, isTargetCallWithNone]
  | PyExpr.Attribute v a => by
      rw [show NoneArgChecker.visit PY2 c (PyExpr.Attribute v a)
            = NoneArgChecker.visit PY2 c v from rfl,
          visit_spec PY2 c v]
      simp [allNodes, isTargetCallWithNone]
  | PyExpr.Subscript v i => by
      rw [show NoneArgChecker.visit PY2 c (PyExpr.Subscript v i)
            = NoneArgChecker.visit PY2 (NoneArgChecker.visit PY2 c v) i from rfl,
          visit_spec PY2 c v, visit_spec PY2 _ i]
      simp [allNodes, isTargetCallWithNone, Bool.or_assoc]
  | PyExpr.Dict ks vs => by
      rw [show NoneArgChecker.visit PY2 c (PyExpr.Dict ks vs)
            = NoneArgChecker.visitList PY2 (NoneArgChecker.visitList PY2 c ks) vs from rfl,
          visitList_spec PY2 c ks, visitList_spec PY2 _ vs]
      simp [allNodes, isTargetCallWithNone, Bool.or_assoc]
  | PyExpr.Call f a k => by
      rw [show NoneArgChecker.visit PY2 c (PyExpr.Call f a k)
            = NoneArgChecker.visitKeywords PY2
                (NoneArgChecker.visitList PY2
                  (NoneArgChecker.visit PY2
                    (if local_func_name f == some c.func_name then
                      { c with none_found :=
                          c.none_found || (a.take c.num_args).any (is_none PY2) }
                     else c) f) a) k from rfl]
      by_cases h : (simpleCalleeName f == some c.func_name) = true
      · rw [local_func_name_eq, if_pos h, visit_spec PY2 _ f, visitList_spec PY2 _ a,
            visitKeywords_spec PY2 _ k]
        simp [allNodes, isTargetCallWithNone, h, PyExprList.any_eq_toList,
              PyExprList.toList_take, Bool.or_assoc]
      · rw [local_func_name_eq, if_neg h, visit_spec PY2 _ f, visitList_spec PY2 _ a,
            visitKeywords_spec PY2 _ k]
        simp [allNodes, isTargetCallWithNone, h, Bool.or_assoc]

theorem visitList_spec (PY2 : Bool) (c : NoneArgChecker) (l : PyExprList) :
    NoneArgChecker.visitList PY2 c l
      = { c with none_found := c.none_found
            || (allNodesList l).any (isTargetCallWithNone PY2 c.func_name c.num_args) } :=
  match l with
  | PyExprList.nil => by simp [NoneArgChecker.visitList, allNodesList]
  | PyExprList.cons h t => by
      rw [show NoneArgChecker.visitList PY2 c (PyExprList.cons h t)
            = NoneArgChecker.visitList PY2 (NoneArgChecker.visit PY2 c h) t from rfl,
          visit_spec PY2 c h, visitList_spec PY2 _ t]
      simp [allNodesList, Bool.or_assoc]

theorem visitKeywords_spec (PY2 : Bool) (c : NoneArgChecker) (l : KeywordList) :
    NoneArgChecker.visitKeywords PY2 c l
      = { c with none_found := c.none_found
            || (allNodesKeywords l).any (isTargetCallWithNone PY2 c.func_name c.num_args) } :=
  match l with
  | KeywordList.nil => by simp [NoneArgChecker.visitKeywords, allNodesKeywords]
  | KeywordList.cons a v t => by
      rw [show NoneArgChecker.visitKeywords PY2 c (KeywordList.cons a v t)
            = NoneArgChecker.visitKeywords PY2 (NoneArgChecker.visit PY2 c v) t from rfl,
          visit_spec PY2 c v, visitKeywords_spec PY2 _ t]
      simp [allNodesKeywords, Bool.or_assoc]

end

/-- When `ast.parse` succeeds on the line, the H203 loop yields, in the
fixed order of `check_names`, one `(index + 1, H203 message)` diagnostic
for every method name whose `.name(` substring occurs in the line and
whose scan of the tree finds a `None` argument. -/
theorem assertIsNoneLoop_parse_ok (PY2 : Bool) (parse : String → Option PyExpr)
    (line : String) (tree0 : PyExpr) (hp : parse line = some tree0) :
    (names : List String) →
    assertIsNoneLoop PY2 parse line names
      = Except.ok (names.filterMap (fun fn =>
          match pyIndex line ("." ++ fn ++ "(") with
          | none => none
          | some idx =>
              if (NoneArgChecker.visit PY2 ⟨fn, 2, false⟩ tree0).none_found then
                some (idx + 1, H203_MSG)
              else none))
  | [] => rfl
  | fn :: rest => by
      have ih := assertIsNoneLoop_parse_ok PY2 parse line tree0 hp rest
      simp only [assertIsNoneLoop, List.filterMap_cons]
      cases hidx : pyIndex line ("." ++ fn ++ "(") with
      | none => simp [ih]
      | some idx =>
          rw [hp, ih]
          cases hnf : (NoneArgChecker.visit PY2 ⟨fn, 2, false⟩ tree0).none_found <;> simp [hnf]

/-- When `ast.parse` fails on the line and at least one method-name
substring is present, the H203 loop propagates the error. -/
theorem assertIsNoneLoop_parse_fail (PY2 : Bool) (parse : String → Option PyExpr)
    (line : String) (hp : parse line = none) :
    (names : List String) →
    (∃ fn ∈ names, (pyIndex line ("." ++ fn ++ "(")).isSome = true) →
    assertIsNoneLoop PY2 parse line names = Except.error ()
  | [], h => absurd h (by simp)
  | fn :: rest, h => by
      simp only [assertIsNoneLoop]
      cases hidx : pyIndex line ("." ++ fn ++ "(") with
      | some idx => rw [hp]
      | none =>
          rcases h with ⟨f, hmem, hsome⟩
          rcases List.mem_cons.mp hmem with hf | hf
          · subst hf
            rw [hidx] at hsome
            simp at hsome
          · exact assertIsNoneLoop_parse_fail PY2 parse line hp rest ⟨f, hf, hsome⟩

/-! Claim theorems. -/

/-- C1: for every expression tree and target name, the scanner
(`NoneArgChecker` started fresh) reports true if and only if some `Call`
node anywhere in the tree has a callee whose simple name (attribute name
for an attribute access, identifier for a bare name, any other shape
skipped) equals the target and at least one of its positional arguments
at index `0..k-1` (fewer if the call has fewer) satisfies `is_none`; the
result is a boolean OR over all matching calls, so traversal continues
after a match. -/
theorem scanner_matches_iff_target_call_with_none (PY2 : Bool) (target : String)
    (k : Nat) (tree : PyExpr) :
    (NoneArgChecker.visit PY2 ⟨target, k, false⟩ tree).none_found = true
      ↔ ∃ n ∈ allNodes tree, isTargetCallWithNone PY2 target k n = true := by
  rw [visit_spec]
  simp [List.any_eq_true]

/-- C2: with suppression off, `self.assertEqual(None, 'foo')` yields
exactly one H203 diagnostic at offset 5 (the method-name substring
match); `self.assertEqual('foo', 'bar')` yields none; and
`self.assertNotEqual('foo', {}.get('bar', None))` yields none, the null
literal being an argument of the nested non-target call only. -/
theorem h203_concrete_examples (parse : String → Option PyExpr)
    (h1 : parse line1 = some tree1) (h2 : parse line2 = some tree2)
    (h3 : parse line3 = some tree3) :
    hacking_assert_is_none false parse line1 false = Except.ok [(5, H203_MSG)]
      ∧ hacking_assert_is_none false parse line2 false = Except.ok []
      ∧ hacking_assert_is_none false parse line3 false = Except.ok [] := by
  refine ⟨?_, ?_, ?_⟩
  · rw [show hacking_assert_is_none false parse line1 false
        = assertIsNoneLoop false parse line1 check_names from rfl,
      assertIsNoneLoop_parse_ok false parse line1 tree1 h1 check_names]
    rfl
  · rw [show hacking_assert_is_none false parse line2 false
        = assertIsNoneLoop false parse line2 check_names from rfl,
      assertIsNoneLoop_parse_ok false parse line2 tree2 h2 check_names]
    rfl
  · rw [show hacking_assert_is_none false parse line3 false
        = assertIsNoneLoop false parse line3 check_names from rfl,
      assertIsNoneLoop_parse_ok false parse line3 tree3 h3 check_names]
    rfl

/-- Witness for C2 at the concrete parse fixture. -/
theorem h203_concrete_examples_witness :
    (parseFixture line1 = some tree1 ∧ parseFixture line2 = some tree2
        ∧ parseFixture line3 = some tree3)
      ∧ hacking_assert_is_none false parseFixture line1 false = Except.ok [(5, H203_MSG)] :=
  ⟨⟨rfl, rfl, rfl⟩, (h203_concrete_examples parseFixture rfl rfl rfl).1⟩

/-- C3 counterexample: on the single logical line
`self.assertEqual(self.assertIs(None, x), None)` the H203 rule emits TWO
diagnostics — one for `assertEqual` at offset 5 and one for `assertIs` at
offset 22 — because the `for func_name in (...)` loop never stops after a
hit: every method name whose substring is present triggers its own
parse-and-scan.  This refutes "only the first method name whose substring
is present triggers a parse-and-scan" and "at most one diagnostic is
emitted per line". -/
theorem h203_two_diagnostics_one_line :
    hacking_assert_is_none false parseFixture line4 false
      = Except.ok [(5, H203_MSG), (22, H203_MSG)] := rfl

/-- C3 amended: the four target method names are tried in the fixed order
`assertEqual`, `assertIs`, `assertNotEqual`, `assertIsNot`, and EVERY
method name whose substring `.methodName(` is present in the logical line
triggers a parse-and-scan, each hit contributing its own diagnostic in
that order; consequently up to four diagnostics may be emitted per
line. -/
theorem h203_scans_every_matching_name (PY2 : Bool) (parse : String → Option PyExpr)
    (line : String) (tree0 : PyExpr) (hp : parse line = some tree0) :
    hacking_assert_is_none PY2 parse line false
      = Except.ok (check_names.filterMap (fun fn =>
          match pyIndex line ("." ++ fn ++ "(") with
          | none => none
          | some idx =>
              if (NoneArgChecker.visit PY2 ⟨fn, 2, false⟩ tree0).none_found then
                some (idx + 1, H203_MSG)
              else none)) :=
  assertIsNoneLoop_parse_ok PY2 parse line tree0 hp check_names

/-- Witness for the amended C3 at the concrete parse fixture. -/
theorem h203_scans_every_matching_name_witness :
    parseFixture line4 = some tree4
      ∧ hacking_assert_is_none false parseFixture line4 false
        = Except.ok (check_names.filterMap (fun fn =>
            match pyIndex line4 ("." ++ fn ++ "(") with
            | none => none
            | some idx =>
                if (NoneArgChecker.visit false ⟨fn, 2, false⟩ tree4).none_found then
                  some (idx + 1, H203_MSG)
                else none)) :=
  ⟨rfl, h203_scans_every_matching_name false parseFixture line4 tree4 rfl⟩

/-- C4: `is_none` returns true iff, in the Python 2 dialect, the node is a
`Name` whose identifier is exactly `None`, and, in the Python 3 dialect,
the node is a `NameConstant` holding the null singleton; every other node
(including identifier nodes with any other name) gives false. -/
theorem is_none_characterization (node : PyExpr) :
    (is_none true node = true ↔ node = PyExpr.Name "None")
      ∧ (is_none false node = true ↔ node = PyExpr.NameConstant none) := by
  constructor <;> cases node <;> simp [is_none, Option.isNone_iff_eq_none]

/-- C5: when the suppression flag (`noqa`) is true, each of the three
rule functions yields an empty sequence of diagnostics regardless of the
line's content. -/
theorem noqa_suppresses_all_rules (PY2 : Bool) (parse : String → Option PyExpr)
    (line : String) :
    hacking_except_format line true = []
      ∧ hacking_except_format_assert line true = []
      ∧ hacking_assert_is_none PY2 parse line true = Except.ok [] :=
  ⟨rfl, rfl, rfl⟩

/-- C6: with suppression off, the bare-except rule yields exactly one H201
diagnostic at offset 6 iff the logical line starts with the literal text
`except:`; in particular `except:` yields one finding at offset 6 and
`except Exception:` yields none. -/
theorem h201_starts_with_except :
    (∀ line : String, hacking_except_format line false
        = if pyStartswith line "except:" then [(6, H201_MSG)] else [])
      ∧ hacking_except_format "except:" false = [(6, H201_MSG)]
      ∧ hacking_except_format "except Exception:" false = [] :=
  ⟨fun _ => rfl, rfl, rfl⟩

/-- C7: with suppression off, the broad-assertion rule yields exactly one
H202 diagnostic at offset 1 iff `RE_ASSERT_RAISES_EXCEPTION` matches the
line, i.e. iff `self.assertRaises(Exception` immediately followed by a
comma or a closing parenthesis occurs in it; in particular
`self.assertRaises(Exception, foo)` and `self.assertRaises(Exception)`
each yield one finding at offset 1 and
`self.assertRaises(NovaException, foo)` yields none. -/
theorem h202_regex_characterization :
    (∀ line : String, hacking_except_format_assert line false
        = if re_assert_raises_exception_search line then [(1, H202_MSG)] else [])
      ∧ hacking_except_format_assert "self.assertRaises(Exception, foo)" false = [(1, H202_MSG)]
      ∧ hacking_except_format_assert "self.assertRaises(Exception)" false = [(1, H202_MSG)]
      ∧ hacking_except_format_assert "self.assertRaises(NovaException, foo)" false = [] :=
  ⟨fun _ => rfl, rfl, rfl, rfl⟩

/-- C8: with suppression off and at least one target method-name substring
present in the line, a failure of `ast.parse` (modelled by `parse`
returning `none`) makes the H203 rule propagate the error to the caller
instead of returning an empty result.  (The other two rules never parse:
their embeddings are total functions on the line text alone.) -/
theorem h203_parse_failure_propagates (PY2 : Bool) (parse : String → Option PyExpr)
    (line : String) (hp : parse line = none)
    (hm : ∃ fn ∈ check_names, (pyIndex line ("." ++ fn ++ "(")).isSome = true) :
    hacking_assert_is_none PY2 parse line false = Except.error () :=
  assertIsNoneLoop_parse_fail PY2 parse line hp check_names hm

/-- Witness for C8: an always-failing parse on a line containing
`.assertEqual(`. -/
theorem h203_parse_failure_propagates_witness :
    ((fun _ : String => (none : Option PyExpr)) line1 = none
        ∧ ∃ fn ∈ check_names, (pyIndex line1 ("." ++ fn ++ "(")).isSome = true)
      ∧ hacking_assert_is_none false (fun _ => none) line1 false = Except.error () :=
  ⟨⟨rfl, by decide⟩, h203_parse_failure_propagates false (fun _ => none) line1 rfl (by decide)⟩

/-- C9 counterexample: the line `xself.assertRaises(Exception, foo)` calls
`assertRaises` on the receiver `xself`, which is not literally `self`,
yet the H202 rule emits a diagnostic, because `re.search` finds the
unanchored pattern inside `xself.`.  This refutes "fires only when the
receiver is literally spelled 'self'". -/
theorem h202_fires_on_xself_receiver :
    hacking_except_format_assert "xself.assertRaises(Exception, foo)" false
      = [(1, H202_MSG)] := rfl

/-- C9 amended: the broad-assertion rule fires exactly when the text
`self.assertRaises(Exception` followed by a comma or a closing
parenthesis occurs as a substring anywhere in the line; in particular
`obj.assertRaises(Exception, foo)` and the bare call
`assertRaises(Exception)` yield no diagnostic, but a receiver merely
ending in `self` (such as `xself`) still fires. -/
theorem h202_substring_only :
    (∀ line : String, hacking_except_format_assert line false = []
        ↔ re_assert_raises_exception_search line = false)
      ∧ hacking_except_format_assert "obj.assertRaises(Exception, foo)" false = []
      ∧ hacking_except_format_assert "assertRaises(Exception)" false = []
      ∧ hacking_except_format_assert "xself.assertRaises(Exception, foo)" false
        = [(1, H202_MSG)] := by
  refine ⟨fun line => ?_, rfl, rfl, rfl⟩
  cases h : re_assert_raises_exception_search line <;>
    simp [hacking_except_format_assert, h]

/-- C10: the scanner inspects only positional arguments: a target call
whose first `k` positional arguments contain no null literal never
matches, regardless of its keyword arguments; in particular on
`self.assertEqual(first=None, second='foo')` — where `None` appears only
as a keyword argument's value — the scanner reports false and the H203
rule yields no diagnostic. -/
theorem scanner_ignores_keyword_arguments (PY2 : Bool) (target : String) (k : Nat) :
    (∀ (func : PyExpr) (args : PyExprList) (kws : KeywordList),
        (args.toList.take k).any (is_none PY2) = false →
          isTargetCallWithNone PY2 target k (PyExpr.Call func args kws) = false)
      ∧ (NoneArgChecker.visit false ⟨"assertEqual", 2, false⟩ tree5).none_found = false
      ∧ ∀ parse : String → Option PyExpr, parse line5 = some tree5 →
          hacking_assert_is_none false parse line5 false = Except.ok [] := by
  refine ⟨fun func args kws h => ?_, rfl, fun parse hp => ?_⟩
  · simp [isTargetCallWithNone, h]
  · rw [show hacking_assert_is_none false parse line5 false
        = assertIsNoneLoop false parse line5 check_names from rfl,
      assertIsNoneLoop_parse_ok false parse line5 tree5 hp check_names]
    rfl

/-- Witness for C10 at a concrete call and the concrete parse fixture. -/
theorem scanner_ignores_keyword_arguments_witness :
    (((pl [PyExpr.Str "x"]).toList.take 2).any (is_none false) = false
        ∧ isTargetCallWithNone false "assertEqual" 2
            (PyExpr.Call (PyExpr.Attribute (PyExpr.Name "self") "assertEqual")
              (pl [PyExpr.Str "x"]) (kl [("first", PyExpr.NameConstant none)])) = false)
      ∧ (parseFixture line5 = some tree5
        ∧ hacking_assert_is_none false parseFixture line5 false = Except.ok []) :=
  ⟨⟨by decide, (scanner_ignores_keyword_arguments false "assertEqual" 2).1 _ _ _ (by decide)⟩,
   ⟨rfl, (scanner_ignores_keyword_arguments false "assertEqual" 2).2.2 parseFixture rfl⟩⟩

end ExceptChecks
